import Mathlib

/-!
Shallow embedding of the `gwu` request pipeline (`src/gwu/gwu.go`) and of its
poem example (`src/examples/poem/poem.go`).

Modelling conventions:
* Go errors are plain message strings (`Err`); a nilable error is `Option Err`.
* `http.ResponseWriter` is modelled with net/http's documented semantics:
  the status line is written at most once (a second `WriteHeader` call is
  superfluous and ignored), header mutations after the status line has been
  written have no effect on the wire, and `Write` before `WriteHeader`
  implicitly writes status 200.
* `json.Marshal` / `json.Unmarshal` are external collaborators; they enter the
  model as oracle parameters (`enc : Out → Except String String`,
  `dec : String → Except String In`).  `json.Encoder.Encode` appends a newline
  after the marshalled value and writes nothing at all when marshalling fails.
* `math/rand.Intn` enters as an oracle `intn : Nat → Nat` giving the stream of
  values drawn while building one identifier; `% IDCharset.length` records
  `Intn`'s guarantee that each draw is below the charset length.
* Logging is modelled by an accumulating list of log messages; the mutex in
  the store is invisible in a sequential model and is dropped.
-/

abbrev Err := String

/-- gwu sentinel: failed to decode request. -/
def ErrDecodeRequest : Err := "failed to decode request"

/-- gwu sentinel: failed to encode response. -/
def ErrEncodeResponse : Err := "failed to encode response"

/-- The wire-observable part of an `http.ResponseWriter`:
headers effective at the time the status line was written, the status line
(written at most once), and the accumulated body bytes. -/
structure ResponseWriter where
  headers : List (String × String)
  status : Option Nat
  body : String
  deriving Repr, DecidableEq

def ResponseWriter.empty : ResponseWriter := ⟨[], none, ""⟩

/-- `w.Header().Set(k, v)`: only effective before the status line is sent. -/
def ResponseWriter.setHeader (w : ResponseWriter) (k v : String) : ResponseWriter :=
  if w.status.isSome then w
  else { w with headers := (w.headers.filter (fun kv => kv.1 ≠ k)) ++ [(k, v)] }

/-- `w.Header().Del(k)`: only effective before the status line is sent. -/
def ResponseWriter.delHeader (w : ResponseWriter) (k : String) : ResponseWriter :=
  if w.status.isSome then w
  else { w with headers := w.headers.filter (fun kv => kv.1 ≠ k) }

/-- `w.WriteHeader(code)`: writes the status line once; subsequent calls are
superfluous and ignored (net/http documented behaviour). -/
def ResponseWriter.writeHeader (w : ResponseWriter) (code : Nat) : ResponseWriter :=
  if w.status.isSome then w else { w with status := some code }

/-- `w.Write(s)`: an implicit `WriteHeader(200)` happens first if the status
line has not been written yet, then the bytes are appended to the body. -/
def ResponseWriter.write (w : ResponseWriter) (s : String) : ResponseWriter :=
  let w' := w.writeHeader 200
  { w' with body := w'.body ++ s }

/-- `http.Error(w, msg, code)` (net/http): deletes Content-Length, sets the
plain-text content type and nosniff headers, writes the status line, and
prints the message followed by a newline. -/
def httpError (w : ResponseWriter) (msg : String) (code : Nat) : ResponseWriter :=
  let w := w.delHeader "Content-Length"
  let w := w.setHeader "Content-Type" "text/plain; charset=utf-8"
  let w := w.setHeader "X-Content-Type-Options" "nosniff"
  let w := w.writeHeader code
  w.write (msg ++ "\n")

/-- The request data the modelled decoders consume: the raw body and the
router's path values. -/
structure Request where
  body : String
  pathValues : List (String × String)

/-- `r.PathValue(key)`: the named path segment, `""` when absent. -/
def Request.PathValue (r : Request) (key : String) : String :=
  (r.pathValues.lookup key).getD ""

/-- `CnIn[In]` constructs the input of an Exec function (options omitted:
every decoder in the source discards them). -/
abbrev CnIn (In : Type) := Request → Except Err In

/-- `Exec[In, Out]` executes the endpoint logic.  The Go closure reads and
writes state it captures (the store); the model threads that state
explicitly as `σ`. -/
abbrev Exec (σ In Out : Type) := In → σ → (Out × Nat × Option Err) × σ

/-- `JSON[In]` CnIn: decode the body via the JSON oracle `dec`; any decode
failure is replaced by the `ErrDecodeRequest` sentinel. -/
def JSON {In : Type} (dec : String → Except String In) : CnIn In :=
  fun r =>
    match dec r.body with
    | .error _ => .error ErrDecodeRequest
    | .ok v => .ok v

/-- `PathVal(key)` CnIn: read a path value; never fails. -/
def PathVal (key : String) : CnIn String :=
  fun r => .ok (r.PathValue key)

/-- `ValIn(fn, fnVal)`: run the validation function first; on failure return
the zero `Out`, status 400 and the validation error without calling `fn`. -/
def ValIn {σ In Out : Type} [Inhabited Out]
    (fn : Exec σ In Out) (fnVal : In → Option Err) : Exec σ In Out :=
  fun a s =>
    match fnVal a with
    | some e => ((default, 400, some e), s)
    | none => fn a s

/-- `IntoJSON(w, log, data, statusCode)`: set the JSON content type, write the
status line, then encode.  On encode failure, log the wrapped error and call
`http.Error` with `ErrEncodeResponse` and 500. -/
def IntoJSON {Out : Type} (enc : Out → Except String String)
    (w : ResponseWriter) (logs : List String) (data : Out) (statusCode : Nat) :
    ResponseWriter × List String :=
  let w := w.setHeader "Content-Type" "application/json"
  let w := w.writeHeader statusCode
  match enc data with
  | .ok s => (w.write (s ++ "\n"), logs)
  | .error e =>
      (httpError w ErrEncodeResponse 500, logs ++ [ErrEncodeResponse ++ ": " ++ e])

/-- `Handle(inFn, fn)`: one handler invocation on a fresh response writer.
Decoder error: `http.Error` with status 400 and return.  Exec error:
`http.Error` with the exec's code and return.  Otherwise `IntoJSON`.
Returns the writer, the pipeline's log messages, and the final state. -/
def Handle {σ In Out : Type} (inFn : CnIn In) (fn : Exec σ In Out)
    (enc : Out → Except String String) (req : Request) (s : σ) :
    ResponseWriter × List String × σ :=
  match inFn req with
  | .error e => (httpError ResponseWriter.empty e 400, [], s)
  | .ok inp =>
    match fn inp s with
    | ((out, code, err), s') =>
      match err with
      | some e => (httpError ResponseWriter.empty e code, [], s')
      | none =>
        let (w, logs) := IntoJSON enc ResponseWriter.empty [] out code
        (w, logs, s')

/-! Poem example (`src/examples/poem/poem.go`). -/

def IDCharset : String := "abcdefghijklmnopqrstuvwxyzABCDEFGHIJKLMNOPQRSTUVWXYZ0123456789"

def IDLength : Nat := 10

abbrev ID := String

/-- example sentinel: poem(s) do(es) not exist. -/
def ErrNotFound : Err := "poem(s) do(es) not exist"

/-- example sentinel: the requested author does not exist. -/
def ErrAuthorNotFound : Err := "the requested author does not exist"

/-- example sentinel: internal error: could not create. -/
def ErrCouldNotCreate : Err := "internal error: could not create"

/-- internal sentinel of the example store. -/
def errNotFound : Err := "not found - internally"

/-- internal sentinel of the example store. -/
def errDuplicate : Err := "duplicate poem - internally"

/-- `NewID()`: ten characters drawn from `IDCharset` at the indices given by
the `rand.Intn` oracle (each draw is below the charset length). -/
def NewID (intn : Nat → Nat) : ID :=
  String.mk ((List.range IDLength).map
    (fun i => IDCharset.toList.getD (intn i % IDCharset.length) 'a'))

/-- `IDIn(key)` CnIn: read a path value as an `ID`; never fails. -/
def IDIn (key : String) : CnIn ID :=
  fun r => .ok (r.PathValue key)

/-- The `Poem` record.  Go field names `ID`, `Name`, `Author`, `Text` become
`id`, `name`, `author`, `text`. -/
structure Poem where
  id : ID
  name : String
  author : String
  text : String
  deriving Repr, DecidableEq

instance : Inhabited Poem := ⟨⟨"", "", "", ""⟩⟩

/-- `ValidateToCreate(p)`: name, author and text must be non-empty. -/
def ValidateToCreate (p : Poem) : Option Err :=
  if p.name = "" then some ("name" ++ " required to create poem")
  else if p.author = "" then some ("author" ++ " required to create poem")
  else if p.text = "" then some ("text" ++ " required to create poem")
  else none

/-- The store: the Go map `map[ID]Poem` as an association list with unique
keys (the mutex is dropped in this sequential model). -/
structure Store where
  poems : List (ID × Poem)
  deriving Repr, DecidableEq

/-- `(*Store).Poem(id)`: the record under `id`, or `errNotFound`.  (Named
`poem` here: the Go method name `Poem` would shadow the record type inside
the `Store` namespace.) -/
def Store.poem (s : Store) (id : ID) : Except Err Poem :=
  match s.poems.lookup id with
  | none => .error errNotFound
  | some poem => .ok poem

/-- `(*Store).PoemsByAuthor(author)`: every stored record whose author field
equals the argument; an empty list (never an error) when none match. -/
def Store.PoemsByAuthor (s : Store) (author : String) : List Poem :=
  (s.poems.map Prod.snd).filter (fun poem => poem.author = author)

/-- `(*Store).Add(poem)`: reject with `errDuplicate` when the key exists
(leaving the store as it was); otherwise store the record under its id. -/
def Store.Add (s : Store) (poem : Poem) : Option Err × Store :=
  if (s.poems.lookup poem.id).isSome then (some errDuplicate, s)
  else (none, ⟨s.poems ++ [(poem.id, poem)]⟩)

/-- `(*PoemController).Create`: assign a fresh random id, add to the store;
on a store error answer 500 with `ErrCouldNotCreate`, otherwise 201. -/
def PoemController.Create (intn : Nat → Nat) : Exec Store Poem Poem :=
  fun poem s =>
    let poem := { poem with id := NewID intn }
    match s.Add poem with
    | (some _, s') => ((poem, 500, some ErrCouldNotCreate), s')
    | (none, s') => ((poem, 201, none), s')

/-- `(*PoemController).ByID`: fetch by id; 404 with `ErrNotFound` on a miss
(returning the zero record), otherwise 200 with the record. -/
def PoemController.ByID : Exec Store ID Poem :=
  fun id s =>
    match s.poem id with
    | .error _ => ((default, 404, some ErrNotFound), s)
    | .ok poem => ((poem, 200, none), s)

/-- `(*PoemController).ByAuthor`: list by author; 404 with
`ErrAuthorNotFound` when the list is empty, otherwise 200 with the list. -/
def PoemController.ByAuthor : Exec Store String (List Poem) :=
  fun author s =>
    let poems := s.PoemsByAuthor author
    if poems.length = 0 then ((([] : List Poem), 404, some ErrAuthorNotFound), s)
    else ((poems, 200, none), s)

/-- `(*Store).mock()`: the four records seeded by `NewStore`, in source
order.  The third entry stores, under key `"abcdefghij"`, a record whose id
field is `"abcdefghi"` — transcribed verbatim from the source. -/
def mockPoems : List (ID × Poem) :=
  [ ("1234567890",
     { id := "1234567890", name := "The Raven", author := "Edgar Allan Poe",
       text := "Once upon a midnight dreary, while I pondered, weak and weary,\nOver many a quaint and curious volume of forgotten lore—\nWhile I nodded, nearly napping, suddenly there came a tapping,\nAs of some one gently rapping, rapping at my chamber door.\n“’Tis some visitor,” I muttered, “tapping at my chamber door—\nOnly this and nothing more.”" }),
    ("abc123defx",
     { id := "abc123defx", name := "The Road Not Taken", author := "Robert Frost",
       text := "Two roads diverged in a yellow wood,\nAnd sorry I could not travel both\nAnd be one traveler, long I stood\nAnd looked down one as far as I could\nTo where it bent in the undergrowth;" }),
    ("abcdefghij",
     { id := "abcdefghi", name := "Der Erlkönig", author := "Goethe",
       text := "Wer reitet so spät durch Nacht und Wind?\nEs ist der Vater mit seinem Kind;\nEr hat den Knaben wohl in dem Arm,\nEr faßt ihn sicher, er hält ihn warm." }),
    ("isjzB57elf",
     { id := "isjzB57elf", name := "Der Zauberlehrling", author := "Goethe",
       text := "Hat der alte Hexenmeister\nSich doch einmal wegbegeben!\nUnd nun sollen seine Geister\nAuch nach meinem Willen leben." }) ]

/-- `NewStore()`: an empty map immediately seeded with the mock data. -/
def NewStore : Store := ⟨mockPoems⟩

/-! Helper lemmas. -/

theorem string_empty_append (s : String) : "" ++ s = s := rfl

/-- `http.Error` on a fresh writer: plain-text headers, the given status, and
the message followed by a newline. -/
theorem httpError_fresh (msg : String) (code : Nat) :
    httpError ResponseWriter.empty msg code =
      ⟨[("Content-Type", "text/plain; charset=utf-8"),
        ("X-Content-Type-Options", "nosniff")], some code, msg ++ "\n"⟩ := rfl

theorem lookup_append_of_none {α β : Type} [BEq α] (l₁ l₂ : List (α × β)) (a : α)
    (h : l₁.lookup a = none) : (l₁ ++ l₂).lookup a = l₂.lookup a := by
  induction l₁ with
  | nil => simp
  | cons kv t ih =>
    cases kv with
    | mk k v =>
      simp only [List.cons_append, List.lookup] at h ⊢
      cases hb : (a == k) with
      | true => simp [hb] at h
      | false => simp only [hb] at h ⊢; exact ih h

/-! Theorems for the claims. -/

/-- Claim C8: when the decoder returns an error, the built handler writes
that error's text as the response body with status 400 and stops: the
business-logic function is never invoked (the state is returned untouched
and the result does not depend on the Exec or encoder supplied) and nothing
further is written (no log entries, body is exactly the error text plus the
newline `http.Error` appends). -/
theorem handle_decoder_error {σ In Out : Type} (inFn : CnIn In)
    (fn fn₂ : Exec σ In Out) (enc enc₂ : Out → Except String String)
    (req : Request) (s : σ) (e : Err) (h : inFn req = .error e) :
    Handle inFn fn enc req s = (httpError ResponseWriter.empty e 400, [], s)
    ∧ (Handle inFn fn enc req s).1.status = some 400
    ∧ (Handle inFn fn enc req s).1.body = e ++ "\n"
    ∧ (Handle inFn fn enc req s).2.1 = []
    ∧ (Handle inFn fn enc req s).2.2 = s
    ∧ Handle inFn fn enc req s = Handle inFn fn₂ enc₂ req s := by
  simp [Handle, h, httpError_fresh]

/-- Claim C8 witness: a concrete decoder failure, evaluated. -/
theorem handle_decoder_error_witness :
    (Handle (σ := Store) (fun _ => (.error "bad input" : Except Err Poem))
        (fun _ s => (((default : Poem), 200, none), s)) (fun _ => .ok "j")
        ⟨"", []⟩ NewStore).1.status = some 400 :=
  (handle_decoder_error (fun _ => (.error "bad input" : Except Err Poem))
    (fun _ s => (((default : Poem), 200, none), s))
    (fun _ s => (((default : Poem), 200, none), s))
    (fun _ => .ok "j") (fun _ => .ok "j") ⟨"", []⟩ NewStore "bad input" rfl).2.1

/-- Claim C9: when the decoder succeeds and the business-logic function
returns an error, the built handler writes that error's text as the response
body with exactly the status code the function returned, and stops without
writing any JSON-encoded output: the response is the plain-text `http.Error`
response (its content type is text/plain, not application/json), no log
entry is produced, and the result does not depend on the JSON encoder. -/
theorem handle_exec_error {σ In Out : Type} (inFn : CnIn In)
    (fn : Exec σ In Out) (enc enc₂ : Out → Except String String)
    (req : Request) (s s' : σ) (inp : In) (out : Out) (code : Nat) (e : Err)
    (hin : inFn req = .ok inp) (hfn : fn inp s = ((out, code, some e), s')) :
    Handle inFn fn enc req s = (httpError ResponseWriter.empty e code, [], s')
    ∧ (Handle inFn fn enc req s).1.status = some code
    ∧ (Handle inFn fn enc req s).1.body = e ++ "\n"
    ∧ (Handle inFn fn enc req s).1.headers.lookup "Content-Type"
        = some "text/plain; charset=utf-8"
    ∧ (Handle inFn fn enc req s).2.1 = []
    ∧ Handle inFn fn enc req s = Handle inFn fn enc₂ req s := by
  simp [Handle, hin, hfn, httpError_fresh, List.lookup]

/-- Claim C9 witness: a concrete exec failure with status 418, evaluated. -/
theorem handle_exec_error_witness :
    (Handle (σ := Store) (fun _ => (.ok "x" : Except Err String))
        (fun _ s => (((default : Poem), 418, some "teapot error"), s))
        (fun _ => .ok "j") ⟨"", []⟩ NewStore).1.status = some 418 :=
  (handle_exec_error (fun _ => (.ok "x" : Except Err String))
    (fun _ s => (((default : Poem), 418, some "teapot error"), s))
    (fun _ => .ok "j") (fun _ => .ok "j") ⟨"", []⟩ NewStore NewStore
    "x" default 418 "teapot error" rfl rfl).2.1

/-- Claim C10: whenever the JSON decode oracle fails — however the body is
malformed and whatever the underlying parse error — the `JSON` decoder
returns the fixed sentinel `ErrDecodeRequest`, so the built handler's 400
response body is exactly that constant text (plus the newline `http.Error`
appends) and never contains the underlying parse-error detail. -/
theorem json_decode_sentinel {σ In Out : Type} (dec : String → Except String In)
    (fn : Exec σ In Out) (enc : Out → Except String String)
    (req : Request) (s : σ) (e : String) (h : dec req.body = .error e) :
    JSON dec req = .error ErrDecodeRequest
    ∧ (Handle (JSON dec) fn enc req s).1.status = some 400
    ∧ (Handle (JSON dec) fn enc req s).1.body = ErrDecodeRequest ++ "\n" := by
  have hj : JSON dec req = .error ErrDecodeRequest := by simp [JSON, h]
  exact ⟨hj, by simp [Handle, hj, httpError_fresh], by simp [Handle, hj, httpError_fresh]⟩

/-- Claim C10 witness: two differently malformed bodies produce the same
constant 400 body. -/
theorem json_decode_sentinel_witness :
    (Handle (σ := Store) (JSON (fun _ => (.error "unexpected EOF" : Except String Poem)))
        (fun _ s => (((default : Poem), 200, none), s)) (fun _ => .ok "j")
        ⟨"not json", []⟩ NewStore).1.body = ErrDecodeRequest ++ "\n" :=
  (json_decode_sentinel (fun _ => (.error "unexpected EOF" : Except String Poem))
    (fun _ s => (((default : Poem), 200, none), s)) (fun _ => .ok "j")
    ⟨"not json", []⟩ NewStore "unexpected EOF" rfl).2.2

/-- Claim C1 (code behaviour at the failing input): the decoder and the
business-logic function succeed with status 200, and JSON encoding of the
output fails.  `IntoJSON` has already written the status line with 200
before encoding, so the `WriteHeader(500)` issued inside `http.Error` is
superfluous and ignored: the wire response keeps status 200 — not the 500
the claim states — while the body does become the generic encode-error
message, the failure is logged, and exactly one status line is written. -/
theorem intoJSON_encode_failure_keeps_status :
    Handle (σ := Unit) (fun _ => (.ok 0 : Except Err Nat))
        (fun _ s => ((0, 200, none), s))
        (fun _ => .error "json: unsupported value") ⟨"", []⟩ ()
      = (⟨[("Content-Type", "application/json")], some 200,
          "failed to encode response\n"⟩,
         ["failed to encode response: json: unsupported value"], ())
    ∧ some 200 ≠ some 500 := by
  exact ⟨rfl, by decide⟩

/-- Claim C4: `Store.Add` returns the duplicate error if and only if the
record's identifier is already a key of the store; in the error case the
store is returned exactly as it was (the existing record under that
identifier is never overwritten), and otherwise no error is returned and
the record is stored under its identifier. -/
theorem store_add_duplicate_iff (s : Store) (p : Poem) :
    ((s.Add p).1 = some errDuplicate ↔ (s.poems.lookup p.id).isSome = true)
    ∧ ((s.poems.lookup p.id).isSome = true →
        (s.Add p).2 = s ∧ (s.Add p).2.poems.lookup p.id = s.poems.lookup p.id)
    ∧ ((s.poems.lookup p.id).isSome = false →
        (s.Add p).1 = none ∧ (s.Add p).2.poems.lookup p.id = some p) := by
  by_cases h : (s.poems.lookup p.id).isSome = true
  · simp [Store.Add, h]
  · have hn : s.poems.lookup p.id = none := by
      cases hl : s.poems.lookup p.id with
      | none => rfl
      | some q => rw [hl] at h; simp at h
    refine ⟨?_, ?_, ?_⟩
    · simp [Store.Add, h, errDuplicate]
    · intro hc; rw [hc] at h; simp at h
    · intro _
      constructor
      · simp [Store.Add, h]
      · have : (s.Add p).2.poems = s.poems ++ [(p.id, p)] := by
          simp [Store.Add, h]
        rw [this, lookup_append_of_none s.poems [(p.id, p)] p.id hn]
        simp [List.lookup]

/-- Claim C4 witness: adding under the mock key `"1234567890"` is rejected
and leaves the store untouched; adding under a fresh key stores the record
under its identifier. -/
theorem store_add_duplicate_witness :
    (NewStore.Add ⟨"1234567890", "n", "a", "t"⟩).2 = NewStore
    ∧ (NewStore.Add ⟨"zzzzzzzzzz", "n", "a", "t"⟩).2.poems.lookup "zzzzzzzzzz"
        = some ⟨"zzzzzzzzzz", "n", "a", "t"⟩ :=
  ⟨((store_add_duplicate_iff NewStore ⟨"1234567890", "n", "a", "t"⟩).2.1 (by rfl)).1,
   ((store_add_duplicate_iff NewStore ⟨"zzzzzzzzzz", "n", "a", "t"⟩).2.2 (by rfl)).2⟩

/-- Claim C5: when the validation function rejects the decoded input, the
validation-wrapped Exec answers status 400 with that validation error and
never invokes the wrapped business-logic function — the state is returned
untouched and the result is the same whichever business-logic function is
wrapped; when validation succeeds, the wrapper returns exactly the result
of the wrapped business-logic function. -/
theorem valin_short_circuit {σ In Out : Type} [Inhabited Out]
    (fn fn₂ : Exec σ In Out) (fnVal : In → Option Err) (a : In) (s : σ) :
    (∀ e, fnVal a = some e →
        ValIn fn fnVal a s = ((default, 400, some e), s)
        ∧ ValIn fn fnVal a s = ValIn fn₂ fnVal a s)
    ∧ (fnVal a = none → ValIn fn fnVal a s = fn a s) := by
  constructor
  · intro e he; rw [ValIn, ValIn, he]; exact ⟨rfl, rfl⟩
  · intro h; rw [ValIn, h]

/-- Claim C5 witness: a create request whose body is missing the name field
is rejected with 400 by `ValidateToCreate` and the store is left untouched. -/
theorem valin_short_circuit_witness :
    ValIn (PoemController.Create (fun _ => 0)) ValidateToCreate
        ⟨"", "", "someone", "some text"⟩ NewStore
      = ((default, 400, some "name required to create poem"), NewStore) :=
  (((valin_short_circuit (PoemController.Create (fun _ => 0))
      (PoemController.Create (fun _ => 1)) ValidateToCreate
      ⟨"", "", "someone", "some text"⟩ NewStore).1
    "name required to create poem" (by rfl))).1

/-- Claim C3 (code behaviour at the failing state): the initial store built
by `NewStore` — a reachable state, indeed the starting one — holds under
the storage key `"abcdefghij"` a record whose identifier field is
`"abcdefghi"`, so the identifier field and the storage key differ there,
against the invariant the claim states. -/
theorem mock_id_key_mismatch :
    (NewStore.poems.lookup "abcdefghij").map Poem.id = some "abcdefghi"
    ∧ ("abcdefghi" : String) ≠ "abcdefghij" :=
  ⟨rfl, by decide⟩

/-- Claim C6: through the full GET poem-by-id pipeline, an identifier not
present in the store answers 404 with the not-found message; an identifier
holding a record answers 200 with the JSON encoding of exactly that record;
and creating a record then fetching it by the server-assigned identifier
returns a record equal to the submitted one in all fields except the
identifier, which is the freshly generated one. -/
theorem byid_roundtrip (s : Store) (req : Request) (enc : Poem → Except String String)
    (id : ID) (hreq : req.PathValue "id" = id) :
    (s.poems.lookup id = none →
       (Handle (IDIn "id") PoemController.ByID enc req s).1.status = some 404
       ∧ (Handle (IDIn "id") PoemController.ByID enc req s).1.body = ErrNotFound ++ "\n"
       ∧ (Handle (IDIn "id") PoemController.ByID enc req s).2.2 = s)
    ∧ (∀ p j, s.poems.lookup id = some p → enc p = .ok j →
       (Handle (IDIn "id") PoemController.ByID enc req s).1.status = some 200
       ∧ (Handle (IDIn "id") PoemController.ByID enc req s).1.body = j ++ "\n")
    ∧ (∀ intn poem, s.poems.lookup (NewID intn) = none →
       ∀ rec code err s₂, PoemController.Create intn poem s = ((rec, code, err), s₂) →
         rec = { poem with id := NewID intn } ∧ code = 201 ∧ err = none
         ∧ s₂.poem rec.id = .ok rec) := by
  refine ⟨?_, ?_, ?_⟩
  · intro h
    have hby : PoemController.ByID id s = ((default, 404, some ErrNotFound), s) := by
      simp [PoemController.ByID, Store.poem, h]
    simp [Handle, IDIn, hreq, hby, httpError_fresh]
  · intro p j hp hj
    have hby : PoemController.ByID id s = ((p, 200, none), s) := by
      simp [PoemController.ByID, Store.poem, hp]
    constructor
    · simp [Handle, IDIn, hreq, hby, IntoJSON, hj, ResponseWriter.empty,
        ResponseWriter.setHeader, ResponseWriter.writeHeader, ResponseWriter.write]
    · simp [Handle, IDIn, hreq, hby, IntoJSON, hj, ResponseWriter.empty,
        ResponseWriter.setHeader, ResponseWriter.writeHeader, ResponseWriter.write]
  · intro intn poem hfresh rec code err s₂ hc
    have hadd : s.Add { poem with id := NewID intn }
        = (none, ⟨s.poems ++ [(NewID intn, { poem with id := NewID intn })]⟩) := by
      simp [Store.Add, hfresh]
    simp only [PoemController.Create, hadd] at hc
    have hrec : rec = { poem with id := NewID intn } :=
      (congrArg (fun x => x.1.1) hc).symm
    have hcode : code = 201 := (congrArg (fun x => x.1.2.1) hc).symm
    have herr : err = none := (congrArg (fun x => x.1.2.2) hc).symm
    have hs : s₂ = ⟨s.poems ++ [(NewID intn, { poem with id := NewID intn })]⟩ :=
      (congrArg (fun x => x.2) hc).symm
    refine ⟨hrec, hcode, herr, ?_⟩
    rw [hs, hrec]
    have hl : (s.poems ++ [(NewID intn, { poem with id := NewID intn })]).lookup
        ({ poem with id := NewID intn }.id)
        = some { poem with id := NewID intn } := by
      show (s.poems ++ [(NewID intn, { poem with id := NewID intn })]).lookup (NewID intn)
        = some { poem with id := NewID intn }
      rw [lookup_append_of_none _ _ _ hfresh]
      simp [List.lookup]
    simp [Store.poem, hl]

/-- Claim C6 witness: fetching a never-inserted identifier through the
pipeline answers 404 with the not-found body, and a create-then-fetch on the
mock store with a concrete random stream round-trips the record. -/
theorem byid_roundtrip_witness :
    ((Handle (IDIn "id") PoemController.ByID (fun _ => .ok "j")
        ⟨"", [("id", "zz")]⟩ NewStore).1.status = some 404
      ∧ (Handle (IDIn "id") PoemController.ByID (fun _ => .ok "j")
        ⟨"", [("id", "zz")]⟩ NewStore).1.body = ErrNotFound ++ "\n")
    ∧ ((PoemController.Create (fun _ => 0) ⟨"", "n", "a", "t"⟩ NewStore).2.poem
          "aaaaaaaaaa" = .ok ⟨"aaaaaaaaaa", "n", "a", "t"⟩) := by
  constructor
  · exact ⟨((byid_roundtrip NewStore ⟨"", [("id", "zz")]⟩ (fun _ => .ok "j") "zz" rfl).1
        rfl).1,
      ((byid_roundtrip NewStore ⟨"", [("id", "zz")]⟩ (fun _ => .ok "j") "zz" rfl).1
        rfl).2.1⟩
  · exact ((byid_roundtrip NewStore ⟨"", [("id", "zz")]⟩ (fun _ => .ok "j") "zz" rfl).2.2
      (fun _ => 0) ⟨"", "n", "a", "t"⟩ rfl
      ⟨"aaaaaaaaaa", "n", "a", "t"⟩ 201 none
      (PoemController.Create (fun _ => 0) ⟨"", "n", "a", "t"⟩ NewStore).2 rfl).2.2.2

/-- Claim C7: `Store.PoemsByAuthor` returns exactly the stored records whose
author field equals the given string (membership characterisation, order
left free) and yields an empty list — not an error — when none match;
through the full GET poems-by-author pipeline, an empty match answers 404
with the author-not-found message, and a non-empty match answers 200 with
the JSON encoding of exactly that list. -/
theorem byauthor_matches (s : Store) (req : Request)
    (enc : List Poem → Except String String) (author : String)
    (hreq : req.PathValue "author" = author) :
    (∀ p, p ∈ s.PoemsByAuthor author ↔ p ∈ s.poems.map Prod.snd ∧ p.author = author)
    ∧ ((∀ p ∈ s.poems.map Prod.snd, p.author ≠ author) → s.PoemsByAuthor author = [])
    ∧ (s.PoemsByAuthor author = [] →
        (Handle (PathVal "author") PoemController.ByAuthor enc req s).1.status = some 404
        ∧ (Handle (PathVal "author") PoemController.ByAuthor enc req s).1.body
            = ErrAuthorNotFound ++ "\n")
    ∧ (∀ j, s.PoemsByAuthor author ≠ [] → enc (s.PoemsByAuthor author) = .ok j →
        (Handle (PathVal "author") PoemController.ByAuthor enc req s).1.status = some 200
        ∧ (Handle (PathVal "author") PoemController.ByAuthor enc req s).1.body
            = j ++ "\n") := by
  refine ⟨?_, ?_, ?_, ?_⟩
  · intro p
    simp [Store.PoemsByAuthor, List.mem_filter]
  · intro h
    rw [Store.PoemsByAuthor, List.filter_eq_nil_iff]
    intro p hp
    simpa using h p hp
  · intro h
    have hby : PoemController.ByAuthor author s
        = (([], 404, some ErrAuthorNotFound), s) := by
      simp [PoemController.ByAuthor, h]
    constructor <;>
      simp [Handle, PathVal, hreq, hby, httpError_fresh]
  · intro j hne hj
    have hby : PoemController.ByAuthor author s
        = ((s.PoemsByAuthor author, 200, none), s) := by
      simp [PoemController.ByAuthor, List.length_eq_zero, hne]
    constructor <;>
      simp [Handle, PathVal, hreq, hby, IntoJSON, hj, ResponseWriter.empty,
        ResponseWriter.setHeader, ResponseWriter.writeHeader, ResponseWriter.write]

/-- Claim C7 witness: the mock store has no poem by "nobody" (404 with the
author-not-found body) and two by "Goethe" (200). -/
theorem byauthor_matches_witness :
    ((Handle (PathVal "author") PoemController.ByAuthor
        (fun _ => .ok "j") ⟨"", [("author", "nobody")]⟩ NewStore).1.status = some 404)
    ∧ ((Handle (PathVal "author") PoemController.ByAuthor
        (fun _ => .ok "j") ⟨"", [("author", "Goethe")]⟩ NewStore).1.status = some 200) := by
  constructor
  · exact ((byauthor_matches NewStore ⟨"", [("author", "nobody")]⟩
      (fun _ => .ok "j") "nobody" rfl).2.2.1 rfl).1
  · exact ((byauthor_matches NewStore ⟨"", [("author", "Goethe")]⟩
      (fun _ => .ok "j") "Goethe" rfl).2.2.2 "j" (by decide) rfl).1

/-- A `rand.Intn` stream under which `NewID` yields `"1234567890"`, an
identifier already present in the mock store. -/
def intnColliding : Nat → Nat :=
  fun i => [53, 54, 55, 56, 57, 58, 59, 60, 61, 52].getD i 0

/-- Claim C2 counterexample: a POST body with non-empty name, author and
text (it passes `ValidateToCreate`), processed when the random stream makes
`NewID` reproduce the existing identifier `"1234567890"`, is answered with
status 500 and the could-not-create message — not with 201 as the claim
states for every such request. -/
theorem create_collision_counterexample :
    NewID intnColliding = "1234567890"
    ∧ ValidateToCreate ⟨"", "My Poem", "Me", "Hi"⟩ = none
    ∧ (Handle (JSON (fun _ => .ok (⟨"", "My Poem", "Me", "Hi"⟩ : Poem)))
        (ValIn (PoemController.Create intnColliding) ValidateToCreate)
        (fun _ => .ok "j") ⟨"ignored", []⟩ NewStore).1.status = some 500
    ∧ (Handle (JSON (fun _ => .ok (⟨"", "My Poem", "Me", "Hi"⟩ : Poem)))
        (ValIn (PoemController.Create intnColliding) ValidateToCreate)
        (fun _ => .ok "j") ⟨"ignored", []⟩ NewStore).1.body
        = ErrCouldNotCreate ++ "\n" :=
  ⟨rfl, rfl, rfl, rfl⟩

/-- Claim C2 (amended): for every POST request whose JSON body decodes to a
record with non-empty name, author and text, and whose randomly generated
identifier is not already a key of the store, the response is 201 with the
JSON encoding of the record carrying that fresh, previously-unused
identifier, and the record is then stored under it; when the generated
identifier collides with an existing key, the response is 500 with the
could-not-create message and the store is unchanged. -/
theorem create_fresh_id (s : Store) (dec : String → Except String Poem)
    (intn : Nat → Nat) (req : Request) (p : Poem)
    (enc : Poem → Except String String) (j : String)
    (hdec : dec req.body = .ok p)
    (hval : ValidateToCreate p = none)
    (henc : enc { p with id := NewID intn } = .ok j) :
    (s.poems.lookup (NewID intn) = none →
      (Handle (JSON dec) (ValIn (PoemController.Create intn) ValidateToCreate)
          enc req s).1.status = some 201
      ∧ (Handle (JSON dec) (ValIn (PoemController.Create intn) ValidateToCreate)
          enc req s).1.body = j ++ "\n"
      ∧ (Handle (JSON dec) (ValIn (PoemController.Create intn) ValidateToCreate)
          enc req s).2.2.poems.lookup (NewID intn) = some { p with id := NewID intn })
    ∧ ((s.poems.lookup (NewID intn)).isSome = true →
      (Handle (JSON dec) (ValIn (PoemController.Create intn) ValidateToCreate)
          enc req s).1.status = some 500
      ∧ (Handle (JSON dec) (ValIn (PoemController.Create intn) ValidateToCreate)
          enc req s).1.body = ErrCouldNotCreate ++ "\n"
      ∧ (Handle (JSON dec) (ValIn (PoemController.Create intn) ValidateToCreate)
          enc req s).2.2 = s) := by
  have hjson : JSON dec req = .ok p := by simp [JSON, hdec]
  constructor
  · intro hfresh
    have hadd : s.Add { p with id := NewID intn }
        = (none, ⟨s.poems ++ [(NewID intn, { p with id := NewID intn })]⟩) := by
      simp [Store.Add, hfresh]
    have hexec : ValIn (PoemController.Create intn) ValidateToCreate p s
        = (({ p with id := NewID intn }, 201, none),
           ⟨s.poems ++ [(NewID intn, { p with id := NewID intn })]⟩) := by
      simp [ValIn, hval, PoemController.Create, hadd]
    refine ⟨?_, ?_, ?_⟩
    · simp [Handle, hjson, hexec, IntoJSON, henc, ResponseWriter.empty,
        ResponseWriter.setHeader, ResponseWriter.writeHeader, ResponseWriter.write]
    · simp [Handle, hjson, hexec, IntoJSON, henc, ResponseWriter.empty,
        ResponseWriter.setHeader, ResponseWriter.writeHeader, ResponseWriter.write]
    · simp only [Handle, hjson, hexec]
      rw [lookup_append_of_none _ _ _ hfresh]
      simp [List.lookup]
  · intro hdup
    have hadd : s.Add { p with id := NewID intn } = (some errDuplicate, s) := by
      simp [Store.Add, hdup]
    have hexec : ValIn (PoemController.Create intn) ValidateToCreate p s
        = (({ p with id := NewID intn }, 500, some ErrCouldNotCreate), s) := by
      simp [ValIn, hval, PoemController.Create, hadd]
    refine ⟨?_, ?_, ?_⟩ <;>
      simp [Handle, hjson, hexec, httpError_fresh]

/-- Claim C2 witness: on the mock store, a concrete valid body and a random
stream yielding the unused identifier `"aaaaaaaaaa"` produce a 201 response
and store the record under the fresh identifier. -/
theorem create_fresh_id_witness :
    (Handle (JSON (fun _ => .ok (⟨"", "n", "a", "t"⟩ : Poem)))
        (ValIn (PoemController.Create (fun _ => 0)) ValidateToCreate)
        (fun _ => .ok "j") ⟨"ignored", []⟩ NewStore).1.status = some 201
    ∧ (Handle (JSON (fun _ => .ok (⟨"", "n", "a", "t"⟩ : Poem)))
        (ValIn (PoemController.Create (fun _ => 0)) ValidateToCreate)
        (fun _ => .ok "j") ⟨"ignored", []⟩ NewStore).2.2.poems.lookup "aaaaaaaaaa"
        = some ⟨"aaaaaaaaaa", "n", "a", "t"⟩ := by
  have h := (create_fresh_id NewStore (fun _ => .ok (⟨"", "n", "a", "t"⟩ : Poem))
    (fun _ => 0) ⟨"ignored", []⟩ ⟨"", "n", "a", "t"⟩ (fun _ => .ok "j") "j"
    rfl rfl rfl).1 rfl
  exact ⟨h.1, h.2.2⟩
